import Mathlib

/-!
Verification of the DDI read-only query API (FastAPI service over a relational
drug-interaction / side-effect / clinical corpus).

This file gives a shallow embedding of the route handlers in
`app/routes/routes.py`.  Database tables are embedded as lists of row
structures; an SQL query with a `WHERE` predicate becomes a `List.filter`;
SQLAlchemy `Float` columns that the endpoints only add, divide and compare are
embedded as exact rationals (`ℚ`); nullable columns that the handlers actually
branch on are embedded as `Option`.  A handler that can answer with an HTTP
error status is embedded as a function into `ApiResult`.

Python's `sorted(..., key=k, reverse=True)` (a stable descending sort) is
embedded as `List.insertionSort` with the relation `fun a b => k b ≤ k a`:
Mathlib's `orderedInsert` places the inserted element before the first element
it relates to, which is exactly the stable-descending placement.
-/

namespace DDI

section RatKernelEval

/-! Batteries marks `Rat.add`, `Rat.mul` and `Rat.inv` `@[irreducible]`, which
blocks kernel evaluation of concrete rational arithmetic by `decide`/`rfl`.
They are made semireducible locally so that the concrete witness instances in
this file evaluate; this changes nothing about the proved statements. -/
attribute [local semireducible] Rat.add Rat.mul Rat.inv

/-- Python's `str.lower()` on the ASCII names stored in the tables, written
over the character list so that concrete instances evaluate in the kernel
(extensionally `String.toLower` there). -/
def lowerStr (s : String) : String := ⟨s.data.map Char.toLower⟩

/-- Result of one HTTP request: a 200 body, or an error status with detail
string (FastAPI `HTTPException`). -/
inductive ApiResult (α : Type) where
  | ok : α → ApiResult α
  | httpError : Nat → String → ApiResult α
deriving DecidableEq, Repr

/-- Row of the `barkla_weighted_rate` table (model `BarklaData`), restricted to
the columns the ranking endpoints read. -/
structure BarklaRow where
  side_effect : String
  drug_name : String
  combined_rate : ℚ
deriving DecidableEq, Repr

/-- The rows fetched by `/culprit_drug`:
`BarklaData.side_effect == side_effect.lower() AND drug_name IN [d.lower() ...]`. -/
def retrieveBarklaCulprit (barkla : List BarklaRow) (side_effect : String)
    (drug_list : List String) : List BarklaRow :=
  barkla.filter (fun r =>
    r.side_effect == lowerStr side_effect
      && (drug_list.map lowerStr).contains r.drug_name)

/-- One element of the list returned by `/culprit_drug`. -/
structure CulpritRow where
  drug_name : String
  combined_rate : ℚ
  score : ℚ
deriving DecidableEq, Repr

/-- `total_combined_rate = sum(row.combined_rate for row in barkla_data)`. -/
def culpritTotal (barkla : List BarklaRow) (side_effect : String)
    (drug_list : List String) : ℚ :=
  ((retrieveBarklaCulprit barkla side_effect drug_list).map (·.combined_rate)).sum

/-- The retrieved rows with their scores attached, in retrieval order
(the state of `barkla_data` after the `row.score = ...` loop). -/
def culpritScored (barkla : List BarklaRow) (side_effect : String)
    (drug_list : List String) : List CulpritRow :=
  (retrieveBarklaCulprit barkla side_effect drug_list).map
    (fun r => ⟨r.drug_name, r.combined_rate,
      r.combined_rate / culpritTotal barkla side_effect drug_list⟩)

/-- Descending-score relation used for `sorted(barkla_data, key=lambda x: x.score,
reverse=True)`. -/
def scoreGE (a b : CulpritRow) : Prop := b.score ≤ a.score

instance : DecidableRel scoreGE := fun a b => inferInstanceAs (Decidable (b.score ≤ a.score))

instance : IsTotal CulpritRow scoreGE := ⟨fun a b => le_total b.score a.score⟩

instance : IsTrans CulpritRow scoreGE := ⟨fun _ _ _ h₁ h₂ => le_trans h₂ h₁⟩

/-- Handler of `/culprit_drug`.  Python divides IEEE floats, so when the
retrieved rows are non-empty and their `combined_rate`s sum to `0` the
`row.combined_rate / total_combined_rate` statement raises `ZeroDivisionError`,
which the handler's blanket `except` converts into an HTTP 500. -/
def get_culprit_drug (barkla : List BarklaRow) (side_effect : String)
    (drug_list : List String) : ApiResult (List CulpritRow) :=
  if retrieveBarklaCulprit barkla side_effect drug_list = [] then .ok []
  else if culpritTotal barkla side_effect drug_list = 0 then
    .httpError 500 "float division by zero"
  else .ok (List.insertionSort scoreGE (culpritScored barkla side_effect drug_list))

example :
    get_culprit_drug [⟨"headache", "aspirin", 1⟩, ⟨"headache", "ibuprofen", 3⟩]
      "Headache" ["Aspirin", "Ibuprofen"]
    = .ok [⟨"ibuprofen", 3, 3/4⟩, ⟨"aspirin", 1, 1/4⟩] := by decide

example :
    get_culprit_drug [⟨"headache", "aspirin", 1⟩] "Nausea" ["Aspirin"] = .ok [] := by decide

/-! Helper lemmas about sums and about the stability of `insertionSort`. -/

lemma sum_map_div {α : Type} (f : α → ℚ) (t : ℚ) (l : List α) :
    (l.map (fun x => f x / t)).sum = (l.map f).sum / t := by
  induction l with
  | nil => simp
  | cons x xs ih => simp [ih, add_div]

lemma filter_score_orderedInsert (s : ℚ) (x : CulpritRow) (l : List CulpritRow) :
    (List.orderedInsert scoreGE x l).filter (fun r => r.score == s)
      = (if x.score = s then [x] else []) ++ l.filter (fun r => r.score == s) := by
  induction l with
  | nil =>
    by_cases h : x.score = s <;> simp [List.orderedInsert, List.filter_cons, h]
  | cons y ys ih =>
    by_cases hxy : scoreGE x y
    · rw [List.orderedInsert, if_pos hxy]
      by_cases hx : x.score = s <;> simp [List.filter_cons, hx]
    · rw [List.orderedInsert, if_neg hxy]
      have hlt : x.score < y.score := lt_of_not_le hxy
      by_cases hy : y.score = s
      · have hx : x.score ≠ s := hy ▸ ne_of_lt hlt
        simp [List.filter_cons, hy, hx, ih]
      · by_cases hx : x.score = s <;> simp [List.filter_cons, hy, hx, ih]

lemma filter_score_insertionSort (s : ℚ) (l : List CulpritRow) :
    (List.insertionSort scoreGE l).filter (fun r => r.score == s)
      = l.filter (fun r => r.score == s) := by
  induction l with
  | nil => rfl
  | cons x xs ih =>
    rw [List.insertionSort, filter_score_orderedInsert, ih, List.filter_cons]
    by_cases h : x.score = s <;> simp [h]

/-- C3: the claim says the per-row `score = combined_rate / total` division in
`/culprit_drug` is guarded against a zero total.  It is not: at this concrete
store one matching row with `combined_rate = 0` makes the total `0`, the
division raises `ZeroDivisionError`, and the endpoint answers HTTP 500. -/
theorem culprit_division_guard_counterexample :
    get_culprit_drug [⟨"headache", "aspirin", 0⟩] "Headache" ["Aspirin"]
      = .httpError 500 "float division by zero" := by decide

/-- C3 (amended): whenever `/culprit_drug` retrieves a non-empty set of rows
whose `combined_rate`s sum to exactly `0`, the per-row score division is NOT
guarded: the handler fails with an HTTP 500 (`ZeroDivisionError` caught by the
blanket `except`), and no score-`0` policy is applied. -/
theorem culprit_zero_total_errors (barkla : List BarklaRow) (side_effect : String)
    (drug_list : List String)
    (hne : retrieveBarklaCulprit barkla side_effect drug_list ≠ [])
    (h0 : culpritTotal barkla side_effect drug_list = 0) :
    get_culprit_drug barkla side_effect drug_list
      = .httpError 500 "float division by zero" := by
  rw [get_culprit_drug, if_neg hne, if_pos h0]

/-- Witness for `culprit_zero_total_errors` at a concrete store. -/
theorem culprit_zero_total_errors_witness :
    get_culprit_drug [⟨"headache", "warfarin", 0⟩] "Headache" ["Warfarin"]
      = .httpError 500 "float division by zero" :=
  culprit_zero_total_errors _ _ _ (by decide) (by decide)

/-- C5: whenever `/culprit_drug` succeeds with a non-empty list, the `score`
fields of the returned entries sum to exactly `1` (exact arithmetic; success
implies the total combined rate was nonzero). -/
theorem culprit_scores_sum_one (barkla : List BarklaRow) (side_effect : String)
    (drug_list : List String) (l : List CulpritRow)
    (hok : get_culprit_drug barkla side_effect drug_list = .ok l) (hne : l ≠ []) :
    (l.map (·.score)).sum = 1 := by
  by_cases hr : retrieveBarklaCulprit barkla side_effect drug_list = []
  · rw [get_culprit_drug, if_pos hr] at hok
    cases hok
    exact absurd rfl hne
  · by_cases h0 : culpritTotal barkla side_effect drug_list = 0
    · rw [get_culprit_drug, if_neg hr, if_pos h0] at hok
      cases hok
    · rw [get_culprit_drug, if_neg hr, if_neg h0] at hok
      cases hok
      rw [((List.perm_insertionSort scoreGE
        (culpritScored barkla side_effect drug_list)).map (·.score)).sum_eq]
      rw [culpritScored, List.map_map]
      have : ((·.score) ∘ fun r : BarklaRow =>
          (⟨r.drug_name, r.combined_rate,
            r.combined_rate / culpritTotal barkla side_effect drug_list⟩ : CulpritRow))
          = fun r : BarklaRow => r.combined_rate / culpritTotal barkla side_effect drug_list :=
        rfl
      rw [this, sum_map_div, ← culpritTotal, div_self h0]

/-- Witness for `culprit_scores_sum_one` at a concrete store. -/
theorem culprit_scores_sum_one_witness :
    (([⟨"ibuprofen", 3, 3/4⟩, ⟨"aspirin", 1, 1/4⟩] : List CulpritRow).map (·.score)).sum = 1 :=
  culprit_scores_sum_one [⟨"headache", "aspirin", 1⟩, ⟨"headache", "ibuprofen", 3⟩]
    "Headache" ["Aspirin", "Ibuprofen"] _ (by decide) (by decide)

/-- C6: the list returned by `/culprit_drug` is sorted in non-increasing score
order; rows with equal scores keep their relative retrieval order (Python's
`sorted` is stable, so the returned list filtered to any fixed score value
equals the scored retrieval-order rows filtered to that value); and when no
weighted-rate rows match, the result is `ok []`, not an error. -/
theorem culprit_ranking_sorted_stable (barkla : List BarklaRow) (side_effect : String)
    (drug_list : List String) :
    (∀ l, get_culprit_drug barkla side_effect drug_list = .ok l →
        l.Pairwise (fun a b => b.score ≤ a.score) ∧
        ∀ s : ℚ, l.filter (fun r => r.score == s)
          = (culpritScored barkla side_effect drug_list).filter (fun r => r.score == s)) ∧
    (retrieveBarklaCulprit barkla side_effect drug_list = [] →
        get_culprit_drug barkla side_effect drug_list = .ok []) := by
  constructor
  · intro l hok
    by_cases hr : retrieveBarklaCulprit barkla side_effect drug_list = []
    · rw [get_culprit_drug, if_pos hr] at hok
      cases hok
      refine ⟨List.Pairwise.nil, fun s => ?_⟩
      rw [culpritScored, hr]
      rfl
    · by_cases h0 : culpritTotal barkla side_effect drug_list = 0
      · rw [get_culprit_drug, if_neg hr, if_pos h0] at hok
        cases hok
      · rw [get_culprit_drug, if_neg hr, if_neg h0] at hok
        cases hok
        exact ⟨List.sorted_insertionSort scoreGE _,
          fun s => filter_score_insertionSort s _⟩
  · intro hr
    rw [get_culprit_drug, if_pos hr]

/-- Witness for `culprit_ranking_sorted_stable` at a concrete store with a
score tie between the aspirin and ibuprofen rows. -/
theorem culprit_ranking_sorted_stable_witness :
    ([⟨"naproxen", 2, 1/2⟩, ⟨"aspirin", 1, 1/4⟩, ⟨"ibuprofen", 1, 1/4⟩] : List CulpritRow).Pairwise
        (fun a b => b.score ≤ a.score) ∧
    ([⟨"naproxen", 2, 1/2⟩, ⟨"aspirin", 1, 1/4⟩, ⟨"ibuprofen", 1, 1/4⟩] : List CulpritRow).filter
        (fun r => r.score == (1/4 : ℚ))
      = (culpritScored
          [⟨"headache", "aspirin", 1⟩, ⟨"headache", "ibuprofen", 1⟩, ⟨"headache", "naproxen", 2⟩]
          "Headache" ["Aspirin", "Ibuprofen", "Naproxen"]).filter
        (fun r => r.score == (1/4 : ℚ)) := by
  have h := (culprit_ranking_sorted_stable
      [⟨"headache", "aspirin", 1⟩, ⟨"headache", "ibuprofen", 1⟩, ⟨"headache", "naproxen", 2⟩]
      "Headache" ["Aspirin", "Ibuprofen", "Naproxen"]).1
      [⟨"naproxen", 2, 1/2⟩, ⟨"aspirin", 1, 1/4⟩, ⟨"ibuprofen", 1, 1/4⟩] (by decide)
  exact ⟨h.1, h.2 (1/4)⟩

/-! `/alternative_search` (routes.py `alternative_search`). -/

/-- Row of the `sider_drug_indications` table (model `SiderDrugIndications`),
restricted to the columns the search reads; both name columns are nullable. -/
structure IndicationRow where
  drug_concept_name : Option String
  event_concept_name : Option String
deriving DecidableEq, Repr

/-- The `WHERE` predicate of the `/alternative_search` subquery:
`event_concept_name IN indication_list AND event_concept_name != 'Sudden death'
AND drug_concept_name != replaced_drug AND drug_concept_name IS NOT NULL`.
Under SQL three-valued logic a `NULL` event or drug name fails the
comparisons, so such rows are excluded. -/
def siderMatchRow (indication_list : List String) (replaced_drug : String)
    (r : IndicationRow) : Bool :=
  match r.event_concept_name, r.drug_concept_name with
  | some e, some d =>
    indication_list.contains e && e != "Sudden death" && d != replaced_drug
  | _, _ => false

/-- Handler of `/alternative_search`: group the subquery rows by drug name and
keep exactly the drugs whose row count equals `len(indication_list)`
(`HAVING func.count(...) == len(indication_list)`), each name returned once.
SQL `GROUP BY` enumerates groups in unspecified order; the embedding
enumerates the distinct drug names with `dedup`. -/
def alternative_search (sider : List IndicationRow) (replaced_drug : String)
    (indication_list : List String) : List String :=
  ((sider.filter (siderMatchRow indication_list replaced_drug)).filterMap
      (·.drug_concept_name)).dedup.filter
    (fun d => (sider.filter (siderMatchRow indication_list replaced_drug)).countP
        (fun r => r.drug_concept_name == some d) == indication_list.length)

/-- The count named by the claim: rows of the raw table whose drug name equals
`name` and whose indication is in the required list and is not
`'Sudden death'`. -/
def claimMatchCount (sider : List IndicationRow) (indication_list : List String)
    (name : String) : Nat :=
  sider.countP (fun r => r.drug_concept_name == some name &&
    (match r.event_concept_name with
     | some e => indication_list.contains e && e != "Sudden death"
     | none => false))

example :
    alternative_search
      [⟨some "ibuprofen", some "Pain"⟩, ⟨some "ibuprofen", some "Fever"⟩,
        ⟨some "aspirin", some "Pain"⟩, ⟨some "paracetamol", some "Pain"⟩]
      "aspirin" ["Pain", "Fever"] = ["ibuprofen"] := by decide

lemma countP_sub_eq_claimMatchCount (sider : List IndicationRow)
    (indication_list : List String) (replaced_drug name : String)
    (hname : name ≠ replaced_drug) :
    (sider.filter (siderMatchRow indication_list replaced_drug)).countP
        (fun r => r.drug_concept_name == some name)
      = claimMatchCount sider indication_list name := by
  rw [List.countP_filter, claimMatchCount]
  refine List.countP_congr (fun r _ => ?_)
  cases hd : r.drug_concept_name with
  | none => simp [siderMatchRow, hd]
  | some d =>
    cases he : r.event_concept_name with
    | none => simp [siderMatchRow, hd, he]
    | some e =>
      by_cases hdn : d = name
      · subst hdn
        simp [siderMatchRow, hd, he, hname, and_assoc]
      · simp [siderMatchRow, hd, he, hdn]

/-- C4: a drug name is in the `/alternative_search` result iff it differs from
the replaced drug and its literal row count of (drug, indication) rows with
indication in the required list and different from `'Sudden death'` equals
exactly the length of the required list; the result is deduplicated.  The
hypothesis `indication_list ≠ []` reflects FastAPI's required
`indication_list` query parameter (at least one value must be supplied). -/
theorem alternative_search_spec (sider : List IndicationRow) (replaced_drug : String)
    (indication_list : List String) (hne : indication_list ≠ []) :
    (alternative_search sider replaced_drug indication_list).Nodup ∧
    ∀ name : String,
      name ∈ alternative_search sider replaced_drug indication_list ↔
        (name ≠ replaced_drug ∧
          claimMatchCount sider indication_list name = indication_list.length) := by
  constructor
  · exact (List.nodup_dedup _).filter _
  · intro name
    rw [alternative_search, List.mem_filter, List.mem_dedup, List.mem_filterMap]
    constructor
    · rintro ⟨⟨r, hr, hdrug⟩, hcount⟩
      rw [List.mem_filter] at hr
      have hname : name ≠ replaced_drug := by
        have := hr.2
        rw [siderMatchRow] at this
        cases he : r.event_concept_name with
        | none => rw [he] at this; cases this
        | some e =>
          rw [he, hdrug] at this
          simp only [Bool.and_eq_true, bne_iff_ne] at this
          exact this.2
      refine ⟨hname, ?_⟩
      rw [← countP_sub_eq_claimMatchCount sider indication_list replaced_drug name hname]
      simpa using hcount
    · rintro ⟨hname, hcount⟩
      have hsub : (sider.filter (siderMatchRow indication_list replaced_drug)).countP
          (fun r => r.drug_concept_name == some name) = indication_list.length := by
        rw [countP_sub_eq_claimMatchCount sider indication_list replaced_drug name hname]
        exact hcount
      have hpos : 0 < (sider.filter (siderMatchRow indication_list replaced_drug)).countP
          (fun r => r.drug_concept_name == some name) := by
        rw [hsub]
        exact List.length_pos.mpr hne
      obtain ⟨r, hr, hdrug⟩ := List.countP_pos_iff.mp hpos
      refine ⟨⟨r, hr, by simpa using hdrug⟩, by simpa using hsub⟩

/-- Witness for `alternative_search_spec` at a concrete store: ibuprofen has
exactly the two required indication rows, aspirin is the replaced drug, and
paracetamol covers only one of the two required indications. -/
theorem alternative_search_spec_witness :
    (alternative_search
        [⟨some "ibuprofen", some "Pain"⟩, ⟨some "ibuprofen", some "Fever"⟩,
          ⟨some "aspirin", some "Pain"⟩, ⟨some "paracetamol", some "Pain"⟩]
        "aspirin" ["Pain", "Fever"]).Nodup ∧
    ("ibuprofen" ∈ alternative_search
        [⟨some "ibuprofen", some "Pain"⟩, ⟨some "ibuprofen", some "Fever"⟩,
          ⟨some "aspirin", some "Pain"⟩, ⟨some "paracetamol", some "Pain"⟩]
        "aspirin" ["Pain", "Fever"] ↔
      ("ibuprofen" ≠ "aspirin" ∧
        claimMatchCount
          [⟨some "ibuprofen", some "Pain"⟩, ⟨some "ibuprofen", some "Fever"⟩,
            ⟨some "aspirin", some "Pain"⟩, ⟨some "paracetamol", some "Pain"⟩]
          ["Pain", "Fever"] "ibuprofen" = 2)) := by
  have h := alternative_search_spec
    [⟨some "ibuprofen", some "Pain"⟩, ⟨some "ibuprofen", some "Fever"⟩,
      ⟨some "aspirin", some "Pain"⟩, ⟨some "paracetamol", some "Pain"⟩]
    "aspirin" ["Pain", "Fever"] (by decide)
  exact ⟨h.1, h.2 "ibuprofen"⟩

/-! `/most_likely_side_effects_faers` (routes.py `get_most_likely_side_effect_faers`). -/

/-- Lexicographic codepoint comparison of character lists: how Python compares
`str` values, hence how pandas orders the `drug_name` object column.  (Written
as a recursive `Bool` function so concrete witnesses evaluate in the
kernel.) -/
def strLtb : List Char → List Char → Bool
  | [], [] => false
  | [], _ :: _ => true
  | _ :: _, [] => false
  | a :: as, b :: bs => if a < b then true else if b < a then false else strLtb as bs

/-- Strict ascending string order used by `sort_values(by='drug_name')`. -/
def strLt (a b : String) : Prop := strLtb a.data b.data = true

instance : DecidableRel strLt := fun a b =>
  inferInstanceAs (Decidable (strLtb a.data b.data = true))

lemma strLtb_irrefl : ∀ x : List Char, strLtb x x = false
  | [] => rfl
  | a :: as => by simp [strLtb, strLtb_irrefl as]

lemma strLtb_trans : ∀ {x y z : List Char},
    strLtb x y = true → strLtb y z = true → strLtb x z = true
  | [], [], _, h, _ => by cases h
  | [], _ :: _, [], _, h => by cases h
  | [], _ :: _, _ :: _, _, _ => rfl
  | _ :: _, [], _, h, _ => by cases h
  | _ :: _, _ :: _, [], _, h => by cases h
  | a :: as, b :: bs, c :: cs, hxy, hyz => by
    simp only [strLtb] at hxy hyz ⊢
    by_cases hab : a < b
    · by_cases hbc : b < c
      · simp [lt_trans hab hbc]
      · by_cases hcb : c < b
        · rw [if_neg hbc, if_pos hcb] at hyz
          cases hyz
        · have : b = c := le_antisymm (not_lt.mp hcb) (not_lt.mp hbc)
          subst this
          simp [hab]
    · by_cases hba : b < a
      · rw [if_neg hab, if_pos hba] at hxy
        cases hxy
      · have : a = b := le_antisymm (not_lt.mp hba) (not_lt.mp hab)
        subst this
        rw [if_neg hab, if_neg hba] at hxy
        by_cases hbc : a < c
        · simp [hbc]
        · by_cases hcb : c < a
          · rw [if_neg hbc, if_pos hcb] at hyz
            cases hyz
          · rw [if_neg hbc, if_neg hcb] at hyz ⊢
            exact strLtb_trans hxy hyz

lemma strLtb_eq_of_not_lt : ∀ {x y : List Char},
    strLtb x y = false → strLtb y x = false → x = y
  | [], [], _, _ => rfl
  | [], _ :: _, h, _ => by cases h
  | _ :: _, [], _, h => by cases h
  | a :: as, b :: bs, hxy, hyx => by
    simp only [strLtb] at hxy hyx
    by_cases hab : a < b
    · rw [if_pos hab] at hxy
      cases hxy
    · by_cases hba : b < a
      · rw [if_pos hba] at hyx
        cases hyx
      · have hch : a = b := le_antisymm (not_lt.mp hba) (not_lt.mp hab)
        subst hch
        rw [if_neg hab, if_neg hba] at hxy hyx
        rw [strLtb_eq_of_not_lt hxy hyx]

lemma strLt_asymm {a b : String} (h : strLt a b) : ¬ strLt b a := by
  intro h'
  have := strLtb_trans h h'
  rw [strLtb_irrefl] at this
  cases this

lemma strLt_or_eq_or_gt (a b : String) : strLt a b ∨ a = b ∨ strLt b a := by
  by_cases h1 : strLtb a.data b.data = true
  · exact Or.inl h1
  · by_cases h2 : strLtb b.data a.data = true
    · exact Or.inr (Or.inr h2)
    · refine Or.inr (Or.inl ?_)
      have h1f : strLtb a.data b.data = false := by simpa using h1
      have h2f : strLtb b.data a.data = false := by simpa using h2
      exact String.ext (strLtb_eq_of_not_lt h1f h2f)

/-- Row of the `faers_counts_2024` table (model `FAERSData`), the six columns
the endpoint selects via `with_entities`. -/
structure FaersRow where
  drug_name : String
  side_effect : String
  drug_side_effect_occurrence_count : Int
  case_count_with_drug : Int
  rate : ℚ
  wilson_interval : ℚ
deriving DecidableEq, Repr

/-- Rows retrieved by the FAERS endpoint: `drug_name IN [d.lower() ...]`. -/
def retrieveFaers (faers : List FaersRow) (drug_list : List String) : List FaersRow :=
  faers.filter (fun r => (drug_list.map lowerStr).contains r.drug_name)

/-- The `sort_values(by=['drug_name', 'rate'], ascending=[True, False])` key
order: drug name ascending, rate descending within equal drug names.  (pandas'
default quicksort is not stable; rows tying on both keys may come out in any
order, and the embedding fixes one such order.) -/
def faersLex (a b : FaersRow) : Prop :=
  strLt a.drug_name b.drug_name ∨ (a.drug_name = b.drug_name ∧ b.rate ≤ a.rate)

instance : DecidableRel faersLex := fun a b =>
  inferInstanceAs (Decidable (strLt a.drug_name b.drug_name
    ∨ (a.drug_name = b.drug_name ∧ b.rate ≤ a.rate)))

instance : IsTotal FaersRow faersLex := ⟨fun a b => by
  rcases strLt_or_eq_or_gt a.drug_name b.drug_name with h | h | h
  · exact Or.inl (Or.inl h)
  · rcases le_total b.rate a.rate with hr | hr
    · exact Or.inl (Or.inr ⟨h, hr⟩)
    · exact Or.inr (Or.inr ⟨h.symm, hr⟩)
  · exact Or.inr (Or.inl h)⟩

instance : IsTrans FaersRow faersLex := ⟨fun a b c hab hbc => by
  rcases hab with h₁ | ⟨e₁, r₁⟩
  · rcases hbc with h₂ | ⟨e₂, _⟩
    · exact Or.inl (strLtb_trans h₁ h₂)
    · exact Or.inl (e₂ ▸ h₁)
  · rcases hbc with h₂ | ⟨e₂, r₂⟩
    · refine Or.inl ?_
      rw [strLt, e₁]
      exact h₂
    · exact Or.inr ⟨e₁.trans e₂, r₂.trans r₁⟩⟩

/-- `df.groupby('drug_name').head(n)` over the frame rows in order: keep a row
iff fewer than `n` earlier rows of the frame share its drug name (`seen` is
the list of rows already passed). -/
def groupHeadGo (n : Nat) : List FaersRow → List FaersRow → List FaersRow
  | _, [] => []
  | seen, r :: rs =>
    if seen.countP (fun x => x.drug_name == r.drug_name) < n then
      r :: groupHeadGo n (seen ++ [r]) rs
    else groupHeadGo n (seen ++ [r]) rs

def groupHead (n : Nat) (l : List FaersRow) : List FaersRow := groupHeadGo n [] l

/-- Handler of `/most_likely_side_effects_faers`.  With zero retrieved rows,
`pd.DataFrame([])` has no columns, so the assignment of six column names
raises `ValueError('Length mismatch: ...')`, which the blanket `except`
converts into an HTTP 500 — there is no empty-result guard here, unlike the
weighted variant.  Otherwise: sort by (drug ascending, rate descending), keep
the first five rows of each drug group. -/
def get_most_likely_side_effect_faers (faers : List FaersRow) (drug_list : List String) :
    ApiResult (List FaersRow) :=
  if retrieveFaers faers drug_list = [] then
    .httpError 500 "Length mismatch: Expected axis has 0 elements, new values have 6 elements"
  else .ok (groupHead 5 (List.insertionSort faersLex (retrieveFaers faers drug_list)))

/-- C2: the claim says an input drug list matching no FAERS rows yields an
empty list; in fact the handler fails with an HTTP 500 (pandas column
assignment on the empty frame raises). -/
theorem faers_empty_result_errors (faers : List FaersRow) (drug_list : List String)
    (h : retrieveFaers faers drug_list = []) :
    get_most_likely_side_effect_faers faers drug_list
      = .httpError 500
          "Length mismatch: Expected axis has 0 elements, new values have 6 elements" := by
  rw [get_most_likely_side_effect_faers, if_pos h]

/-- Witness for `faers_empty_result_errors`: the store has only an ibuprofen
row, the query asks about warfarin. -/
theorem faers_empty_result_errors_witness :
    get_most_likely_side_effect_faers [⟨"ibuprofen", "nausea", 1, 2, 1/2, 1/10⟩] ["Warfarin"]
      = .httpError 500
          "Length mismatch: Expected axis has 0 elements, new values have 6 elements" :=
  faers_empty_result_errors _ _ (by decide)

lemma groupHeadGo_sublist (n : Nat) : ∀ (pending seen : List FaersRow),
    List.Sublist (groupHeadGo n seen pending) pending
  | [], _ => by simp [groupHeadGo]
  | r :: rs, seen => by
    simp only [groupHeadGo]
    split_ifs with h
    · exact (groupHeadGo_sublist n rs (seen ++ [r])).cons₂ r
    · exact (groupHeadGo_sublist n rs (seen ++ [r])).cons r

lemma countP_groupHeadGo_le (n : Nat) (d : String) : ∀ (pending seen : List FaersRow),
    (groupHeadGo n seen pending).countP (fun r => r.drug_name == d)
      ≤ n - seen.countP (fun r => r.drug_name == d)
  | [], seen => by simp [groupHeadGo]
  | r :: rs, seen => by
    have ih := countP_groupHeadGo_le n d rs (seen ++ [r])
    rw [List.countP_append] at ih
    simp only [groupHeadGo]
    by_cases hd : r.drug_name = d
    · subst hd
      have hcnt : List.countP (fun x => x.drug_name == r.drug_name) [r] = 1 := by
        simp [List.countP_cons]
      rw [hcnt] at ih
      split_ifs with h
      · rw [List.countP_cons]
        simp only [beq_self_eq_true, if_pos]
        omega
      · omega
    · have hne : (r.drug_name == d) = false := by simpa using hd
      have hcnt : List.countP (fun x => x.drug_name == d) [r] = 0 := by
        simp [List.countP_cons, hne]
      rw [hcnt] at ih
      split_ifs with h
      · rw [List.countP_cons, hne]
        simpa using ih
      · simpa using ih

/-- C8: on success (at least one matching row), the FAERS result has at most
five records per distinct drug name, the drug groups appear in ascending
drug-name order, and within each drug group the rates are non-increasing. -/
theorem faers_grouped_spec (faers : List FaersRow) (drug_list : List String) :
    ∀ res, get_most_likely_side_effect_faers faers drug_list = .ok res →
      (∀ d : String, res.countP (fun r => r.drug_name == d) ≤ 5) ∧
      res.Pairwise (fun a b => strLt a.drug_name b.drug_name ∨ a.drug_name = b.drug_name) ∧
      res.Pairwise (fun a b => a.drug_name = b.drug_name → b.rate ≤ a.rate) := by
  intro res hok
  by_cases h : retrieveFaers faers drug_list = []
  · rw [get_most_likely_side_effect_faers, if_pos h] at hok
    cases hok
  · rw [get_most_likely_side_effect_faers, if_neg h] at hok
    cases hok
    have hsorted : (List.insertionSort faersLex (retrieveFaers faers drug_list)).Pairwise
        faersLex :=
      List.sorted_insertionSort faersLex _
    have hp : (groupHead 5 (List.insertionSort faersLex
        (retrieveFaers faers drug_list))).Pairwise faersLex :=
      hsorted.sublist (groupHeadGo_sublist 5 _ [])
    refine ⟨fun d => ?_, hp.imp ?_, hp.imp ?_⟩
    · have := countP_groupHeadGo_le 5 d
        (List.insertionSort faersLex (retrieveFaers faers drug_list)) []
      simpa [groupHead] using this
    · intro a b hab
      rcases hab with hlt | ⟨he, _⟩
      · exact Or.inl hlt
      · exact Or.inr he
    · intro a b hab heq
      rcases hab with hlt | ⟨_, hr⟩
      · exfalso
        rw [heq] at hlt
        simp [strLt, strLtb_irrefl] at hlt
      · exact hr

example :
    get_most_likely_side_effect_faers
      [⟨"b", "e7", 1, 1, 9, 0⟩, ⟨"a", "e4", 1, 1, 3, 0⟩, ⟨"a", "e1", 1, 1, 6, 0⟩,
        ⟨"a", "e5", 1, 1, 2, 0⟩, ⟨"a", "e2", 1, 1, 5, 0⟩, ⟨"a", "e6", 1, 1, 1, 0⟩,
        ⟨"a", "e3", 1, 1, 4, 0⟩]
      ["A", "B"]
    = .ok [⟨"a", "e1", 1, 1, 6, 0⟩, ⟨"a", "e2", 1, 1, 5, 0⟩, ⟨"a", "e3", 1, 1, 4, 0⟩,
        ⟨"a", "e4", 1, 1, 3, 0⟩, ⟨"a", "e5", 1, 1, 2, 0⟩, ⟨"b", "e7", 1, 1, 9, 0⟩] := by
  decide

/-- Witness for `faers_grouped_spec` at a concrete store: drug `a` has six
rows (the sixth, lowest-rate one is cut by the five-per-group head), drug `b`
has one. -/
theorem faers_grouped_spec_witness :
    (([⟨"a", "e1", 1, 1, 6, 0⟩, ⟨"a", "e2", 1, 1, 5, 0⟩, ⟨"a", "e3", 1, 1, 4, 0⟩,
        ⟨"a", "e4", 1, 1, 3, 0⟩, ⟨"a", "e5", 1, 1, 2, 0⟩, ⟨"b", "e7", 1, 1, 9, 0⟩] :
        List FaersRow).countP (fun r => r.drug_name == "a") ≤ 5) ∧
    (([⟨"a", "e1", 1, 1, 6, 0⟩, ⟨"a", "e2", 1, 1, 5, 0⟩, ⟨"a", "e3", 1, 1, 4, 0⟩,
        ⟨"a", "e4", 1, 1, 3, 0⟩, ⟨"a", "e5", 1, 1, 2, 0⟩, ⟨"b", "e7", 1, 1, 9, 0⟩] :
        List FaersRow).Pairwise
        (fun a b => strLt a.drug_name b.drug_name ∨ a.drug_name = b.drug_name)) ∧
    (([⟨"a", "e1", 1, 1, 6, 0⟩, ⟨"a", "e2", 1, 1, 5, 0⟩, ⟨"a", "e3", 1, 1, 4, 0⟩,
        ⟨"a", "e4", 1, 1, 3, 0⟩, ⟨"a", "e5", 1, 1, 2, 0⟩, ⟨"b", "e7", 1, 1, 9, 0⟩] :
        List FaersRow).Pairwise (fun a b => a.drug_name = b.drug_name → b.rate ≤ a.rate)) := by
  have h := faers_grouped_spec
    [⟨"b", "e7", 1, 1, 9, 0⟩, ⟨"a", "e4", 1, 1, 3, 0⟩, ⟨"a", "e1", 1, 1, 6, 0⟩,
      ⟨"a", "e5", 1, 1, 2, 0⟩, ⟨"a", "e2", 1, 1, 5, 0⟩, ⟨"a", "e6", 1, 1, 1, 0⟩,
      ⟨"a", "e3", 1, 1, 4, 0⟩]
    ["A", "B"]
    [⟨"a", "e1", 1, 1, 6, 0⟩, ⟨"a", "e2", 1, 1, 5, 0⟩, ⟨"a", "e3", 1, 1, 4, 0⟩,
      ⟨"a", "e4", 1, 1, 3, 0⟩, ⟨"a", "e5", 1, 1, 2, 0⟩, ⟨"b", "e7", 1, 1, 9, 0⟩]
    (by decide)
  exact ⟨h.1 "a", h.2.1, h.2.2⟩

/-! `/ancestor_side_effects` (routes.py `get_ancestor_side_effects`). -/

/-- Row of the `pt_to_hlt_or_hlgt` table (model `PTtoHLTMapping`). -/
structure MappingRow where
  descendant_concept_name : String
  ancestor_concept_name : String
  ancestor_concept_class_id : String
deriving DecidableEq, Repr

/-- The second retrieval of the handler: rows whose descendant is among the
descendant names of the first retrieval (rows with descendant in `pt_list`)
and whose ancestor class is the `'HLGT'` tier. -/
def hlgtMappings (ptToHlt : List MappingRow) (pt_list : List String) : List MappingRow :=
  ptToHlt.filter (fun m =>
    ((ptToHlt.filter (fun m0 => pt_list.contains m0.descendant_concept_name)).map
        (·.descendant_concept_name)).contains m.descendant_concept_name
      && m.ancestor_concept_class_id == "HLGT")

/-- Handler of `/ancestor_side_effects`: group the `'HLGT'` rows by descendant
name and join each group's deduplicated ancestor names with `'/'`.  The Python
dict iterates keys in first-insertion order while `list(set(...))` gives the
joined components in arbitrary order; the embedding fixes one order for both
(the claims are order-insensitive). -/
def get_ancestor_side_effects (ptToHlt : List MappingRow) (pt_list : List String) :
    ApiResult (List (String × String)) :=
  .ok (((hlgtMappings ptToHlt pt_list).map (·.descendant_concept_name)).dedup.map
    (fun k => (k, String.intercalate "/"
      ((((hlgtMappings ptToHlt pt_list).filter
          (fun m => m.descendant_concept_name == k)).map (·.ancestor_concept_name)).dedup))))

/-- The `'HLGT'`-tier ancestor names of a descendant in the raw table, as the
claim describes them. -/
def hlgtAncestors (ptToHlt : List MappingRow) (d : String) : List String :=
  (ptToHlt.filter (fun m =>
      m.descendant_concept_name == d && m.ancestor_concept_class_id == "HLGT")).map
    (·.ancestor_concept_name)

example :
    get_ancestor_side_effects
      [⟨"Headache", "Neurological disorders NEC", "HLGT"⟩, ⟨"Headache", "Headaches", "HLT"⟩,
        ⟨"Dizziness", "Vertigos NEC", "HLT"⟩]
      ["Headache", "Dizziness"]
    = .ok [("Headache", "Neurological disorders NEC")] := by decide

lemma mem_keys_iff (ptToHlt : List MappingRow) (pt_list : List String) (d : String) :
    d ∈ (hlgtMappings ptToHlt pt_list).map (·.descendant_concept_name) ↔
      (d ∈ pt_list ∧ ∃ m ∈ ptToHlt, m.descendant_concept_name = d ∧
        m.ancestor_concept_class_id = "HLGT") := by
  rw [List.mem_map]
  constructor
  · rintro ⟨m, hm, rfl⟩
    rw [hlgtMappings, List.mem_filter, Bool.and_eq_true] at hm
    obtain ⟨hmem, hcont, hcls⟩ := hm
    have hnames : m.descendant_concept_name ∈
        (ptToHlt.filter (fun m0 => pt_list.contains m0.descendant_concept_name)).map
          (·.descendant_concept_name) := List.elem_iff.mp hcont
    rw [List.mem_map] at hnames
    obtain ⟨m0, hm0, hm0d⟩ := hnames
    rw [List.mem_filter] at hm0
    have hpt : m0.descendant_concept_name ∈ pt_list := List.elem_iff.mp hm0.2
    exact ⟨hm0d ▸ hpt, m, hmem, rfl, beq_iff_eq.mp hcls⟩
  · rintro ⟨hpt, m, hm, hd, hcls⟩
    refine ⟨m, ?_, hd⟩
    rw [hlgtMappings, List.mem_filter, Bool.and_eq_true]
    refine ⟨hm, ?_, beq_iff_eq.mpr hcls⟩
    refine List.elem_iff.mpr (List.mem_map.mpr ⟨m, List.mem_filter.mpr ⟨hm, ?_⟩, rfl⟩)
    exact List.elem_iff.mpr (hd ▸ hpt)

/-- C9: the mapping returned by `/ancestor_side_effects` has pairwise-distinct
keys; its keys are exactly the input descendants having at least one `'HLGT'`
ancestor row (descendants with none are simply absent — no error, no default);
and each key's value is the `'/'`-join of a duplicate-free list whose members
are exactly that descendant's `'HLGT'` ancestor names (join order is
unspecified in the code, so only the set of components is constrained). -/
theorem ancestor_side_effects_spec (ptToHlt : List MappingRow) (pt_list : List String) :
    ∀ res, get_ancestor_side_effects ptToHlt pt_list = .ok res →
      (res.map Prod.fst).Nodup ∧
      (∀ d : String, (∃ v, (d, v) ∈ res) ↔
        (d ∈ pt_list ∧ ∃ m ∈ ptToHlt, m.descendant_concept_name = d ∧
          m.ancestor_concept_class_id = "HLGT")) ∧
      (∀ d v, (d, v) ∈ res → ∃ l : List String, l.Nodup ∧
        (∀ a, a ∈ l ↔ a ∈ hlgtAncestors ptToHlt d) ∧ v = String.intercalate "/" l) := by
  intro res hok
  rw [get_ancestor_side_effects] at hok
  cases hok
  refine ⟨?_, ?_, ?_⟩
  · rw [List.map_map]
    have hcomp : (Prod.fst ∘ fun k : String => (k, String.intercalate "/"
        ((((hlgtMappings ptToHlt pt_list).filter
          (fun m => m.descendant_concept_name == k)).map (·.ancestor_concept_name)).dedup)))
        = fun k : String => k := rfl
    rw [hcomp]
    simpa using
      List.nodup_dedup ((hlgtMappings ptToHlt pt_list).map (·.descendant_concept_name))
  · intro d
    rw [← mem_keys_iff ptToHlt pt_list d, ← List.mem_dedup]
    constructor
    · rintro ⟨v, hv⟩
      rw [List.mem_map] at hv
      obtain ⟨k, hk, hkv⟩ := hv
      have hkd : k = d := congrArg Prod.fst hkv
      subst hkd
      exact hk
    · intro hd
      exact ⟨_, List.mem_map.mpr ⟨d, hd, rfl⟩⟩
  · intro d v hdv
    rw [List.mem_map] at hdv
    obtain ⟨k, hk, hkv⟩ := hdv
    have hkd : k = d := congrArg Prod.fst hkv
    subst hkd
    have hv : v = String.intercalate "/"
        ((((hlgtMappings ptToHlt pt_list).filter
          (fun m => m.descendant_concept_name == k)).map (·.ancestor_concept_name)).dedup) :=
      (congrArg Prod.snd hkv).symm
    refine ⟨(((hlgtMappings ptToHlt pt_list).filter
        (fun m => m.descendant_concept_name == k)).map (·.ancestor_concept_name)).dedup,
      List.nodup_dedup _, ?_, hv⟩
    intro a
    rw [List.mem_dedup, List.mem_map, hlgtAncestors, List.mem_map]
    constructor
    · rintro ⟨m, hm, rfl⟩
      rw [List.mem_filter] at hm
      obtain ⟨hm1, hm2⟩ := hm
      rw [hlgtMappings, List.mem_filter, Bool.and_eq_true] at hm1
      obtain ⟨hmem, _, hcls⟩ := hm1
      refine ⟨m, List.mem_filter.mpr ⟨hmem, ?_⟩, rfl⟩
      rw [Bool.and_eq_true]
      exact ⟨hm2, hcls⟩
    · rintro ⟨m, hm, rfl⟩
      rw [List.mem_filter, Bool.and_eq_true] at hm
      obtain ⟨hmem, hd, hcls⟩ := hm
      have hkpt := ((mem_keys_iff ptToHlt pt_list k).mp (List.mem_dedup.mp hk)).1
      refine ⟨m, List.mem_filter.mpr ⟨?_, hd⟩, rfl⟩
      rw [hlgtMappings, List.mem_filter, Bool.and_eq_true]
      refine ⟨hmem, ?_, hcls⟩
      refine List.elem_iff.mpr (List.mem_map.mpr ⟨m, List.mem_filter.mpr ⟨hmem, ?_⟩, rfl⟩)
      exact List.elem_iff.mpr ((beq_iff_eq.mp hd) ▸ hkpt)

/-- Witness for `ancestor_side_effects_spec` at a concrete mapping table:
Headache has one `'HLGT'` ancestor row, Dizziness has only an `'HLT'` row and
is therefore absent from the output. -/
theorem ancestor_side_effects_spec_witness :
    (([("Headache", "Neurological disorders NEC")] : List (String × String)).map
        Prod.fst).Nodup ∧
    ((∃ v, ("Headache", v) ∈ ([("Headache", "Neurological disorders NEC")] :
          List (String × String))) ↔
      ("Headache" ∈ ["Headache", "Dizziness"] ∧
        ∃ m ∈ [(⟨"Headache", "Neurological disorders NEC", "HLGT"⟩ : MappingRow),
            ⟨"Headache", "Headaches", "HLT"⟩, ⟨"Dizziness", "Vertigos NEC", "HLT"⟩],
          m.descendant_concept_name = "Headache" ∧
          m.ancestor_concept_class_id = "HLGT")) ∧
    (∃ l : List String, l.Nodup ∧
      (∀ a, a ∈ l ↔ a ∈ hlgtAncestors
        [⟨"Headache", "Neurological disorders NEC", "HLGT"⟩,
          ⟨"Headache", "Headaches", "HLT"⟩, ⟨"Dizziness", "Vertigos NEC", "HLT"⟩]
        "Headache") ∧
      "Neurological disorders NEC" = String.intercalate "/" l) := by
  have h := ancestor_side_effects_spec
    [⟨"Headache", "Neurological disorders NEC", "HLGT"⟩, ⟨"Headache", "Headaches", "HLT"⟩,
      ⟨"Dizziness", "Vertigos NEC", "HLT"⟩]
    ["Headache", "Dizziness"]
    [("Headache", "Neurological disorders NEC")] (by decide)
  exact ⟨h.1, h.2.1 "Headache",
    h.2.2 "Headache" "Neurological disorders NEC" (by decide)⟩

/-! MIMIC clinical endpoints (routes.py `get_patient_portfolio_mimic`,
`get_patient_diagnoses_mimic`, `get_admission_details`). -/

/-- Row of the `patients` table, the columns the handlers read. -/
structure PatientRow where
  SUBJECT_ID : Int
  GENDER : String
  DOB : String
deriving DecidableEq, Repr

/-- Row of the `prescriptions` table, the columns the portfolio query selects
(all nullable in the model). -/
structure PrescriptionRow where
  SUBJECT_ID : Int
  STARTDATE : Option String
  ENDDATE : Option String
  DRUG : Option String
  DRUG_NAME_GENERIC : Option String
  FORMULARY_DRUG_CD : Option String
  DOSE_VAL_RX : Option String
  DOSE_UNIT_RX : Option String
  ROUTE : Option String
deriving DecidableEq, Repr

/-- Schema `PrescriptionResponse`: every field null-coerced to `""`.  Python's
`p.X if p.X else ""` on a nullable string column equals `Option.getD ""`
because the only falsy strings are `None` and `""`, and both map to `""`. -/
structure PrescriptionResponse where
  start_date : String
  end_date : String
  drug : String
  drug_name_generic : String
  formulary_drug_cd : String
  dose_val_rx : String
  dose_unit_rx : String
  route : String
deriving DecidableEq, Repr

/-- Schema `PatientPortfolioResponse`. -/
structure PatientPortfolioResponse where
  patient_id : Int
  patient_gender : String
  patient_age : Int
  patient_dob : String
  prescriptions : List PrescriptionResponse
deriving DecidableEq, Repr

/-- Handler of `/patient_portfolio_mimic`.  `datetime.strptime`/`datetime.now`
are external to the repository: `dateDays` models parsing a stored `DOB`
string into a day number (`none` when parsing raises — with no `try` in this
handler that surfaces as the framework's 500) and `nowDays` models
`datetime.now()`; the age is Python's floor division
`(datetime.now() - dob).days // 365` (`Int.fdiv`).  This handler has no
`try/except`, so its missing-patient 404 reaches the client unchanged. -/
def get_patient_portfolio_mimic (patients : List PatientRow)
    (prescriptions : List PrescriptionRow) (dateDays : String → Option Int)
    (nowDays : Int) (patient_id : Int) : ApiResult PatientPortfolioResponse :=
  match patients.find? (fun p => p.SUBJECT_ID == patient_id) with
  | none => .httpError 404 s!"Patient with ID {patient_id} not found"
  | some patient =>
    match dateDays patient.DOB with
    | none => .httpError 500 "time data does not match format '%Y-%m-%d %H:%M:%S'"
    | some dobDays =>
      .ok ⟨patient_id, patient.GENDER, Int.fdiv (nowDays - dobDays) 365, patient.DOB,
        (prescriptions.filter (fun p => p.SUBJECT_ID == patient_id)).map (fun p =>
          ⟨p.STARTDATE.getD "", p.ENDDATE.getD "", p.DRUG.getD "",
            p.DRUG_NAME_GENERIC.getD "", p.FORMULARY_DRUG_CD.getD "",
            p.DOSE_VAL_RX.getD "", p.DOSE_UNIT_RX.getD "", p.ROUTE.getD ""⟩)⟩

/-- Row of the `diagnoses` table, the columns the handler reads
(`HADM_ID` is a nullable integer column). -/
structure DiagnosisRow where
  SUBJECT_ID : Int
  HADM_ID : Option Int
  ICD9_CODE : String
deriving DecidableEq, Repr

/-- Row of the `d_icd` titles table (`ICD9_CODE` is its primary key). -/
structure DIcdRow where
  ICD9_CODE : String
  SHORT_TITLE : String
  LONG_TITLE : String
deriving DecidableEq, Repr

/-- One element of the list returned by `/patient_diagnoses_mimic`. -/
structure DiagnosisEntry where
  icd9_code : String
  short_title : String
  long_title : String
  hadm_ids : List Int
deriving DecidableEq, Repr

/-- The `icd9_to_hadm_ids` accumulation: walk the diagnosis rows in order and
append `d.HADM_ID` when `if d.HADM_ID and d.HADM_ID not in ...` passes — i.e.
when the id is truthy (Python truthiness on an integer: neither `None` nor
`0`) and not yet collected. -/
def collectHadm : List DiagnosisRow → List Int → List Int
  | [], acc => acc
  | d :: ds, acc =>
    match d.HADM_ID with
    | some h =>
      if h != 0 && !(acc.contains h) then collectHadm ds (acc ++ [h])
      else collectHadm ds acc
    | none => collectHadm ds acc

/-- The `hadm_ids` recorded for one ICD9 code of the patient's rows. -/
def hadmIdsFor (ds : List DiagnosisRow) (code : String) : List Int :=
  collectHadm (ds.filter (fun d => d.ICD9_CODE == code)) []

/-- One formatted diagnosis entry: titles from the `d_icd` row for the code
when one exists (the `icd9_to_titles` dict; the primary key makes the row
unique, so the first match is the only match), else the `"Unknown"`
defaults. -/
def mkDiagnosisEntry (ds : List DiagnosisRow) (dIcd : List DIcdRow) (code : String) :
    DiagnosisEntry :=
  match (dIcd.filter (fun t => (ds.map (·.ICD9_CODE)).contains t.ICD9_CODE)).find?
      (fun t => t.ICD9_CODE == code) with
  | some t => ⟨code, t.SHORT_TITLE, t.LONG_TITLE, hadmIdsFor ds code⟩
  | none => ⟨code, "Unknown", "Unknown", hadmIdsFor ds code⟩

/-- Handler of `/patient_diagnoses_mimic`.  The missing-patient
`HTTPException(404)` is raised INSIDE the `try:` block, so the blanket
`except Exception` catches it and re-raises it as an HTTP 500 whose detail is
`str(e) = "404: <original message>"`.  `for icd9_code in set(icd9_codes)`
iterates the distinct codes in arbitrary set order; the embedding enumerates
them with `dedup` (the claims are order-insensitive). -/
def get_patient_diagnoses_mimic (patients : List PatientRow)
    (diagnoses : List DiagnosisRow) (dIcd : List DIcdRow) (patient_id : Int) :
    ApiResult (List DiagnosisEntry) :=
  match patients.find? (fun p => p.SUBJECT_ID == patient_id) with
  | none => .httpError 500 s!"404: Patient with ID {patient_id} not found"
  | some _ =>
    .ok (((diagnoses.filter (fun d => d.SUBJECT_ID == patient_id)).map
        (·.ICD9_CODE)).dedup.map
      (mkDiagnosisEntry (diagnoses.filter (fun d => d.SUBJECT_ID == patient_id)) dIcd))

/-- Row of the `admissions` table, the columns the handler reads. -/
structure AdmissionRow where
  HADM_ID : Int
  ADMITTIME : Option String
  DISCHTIME : Option String
  DIAGNOSIS : Option String
deriving DecidableEq, Repr

/-- Schema `AdmissionResponse`. -/
structure AdmissionResponse where
  hadm_id : Int
  admission_time : String
  discharge_time : String
  diagnosis : String
deriving DecidableEq, Repr

/-- Handler of `/admission_details`.  As in the diagnoses handler, the
missing-admission 404 is raised inside `try:` and re-raised by the blanket
`except` as an HTTP 500. -/
def get_admission_details (admissions : List AdmissionRow) (hadm_id : Int) :
    ApiResult AdmissionResponse :=
  match admissions.find? (fun a => a.HADM_ID == hadm_id) with
  | none => .httpError 500 s!"404: Admission with ID {hadm_id} not found"
  | some a =>
    .ok ⟨a.HADM_ID, a.ADMITTIME.getD "", a.DISCHTIME.getD "", a.DIAGNOSIS.getD ""⟩

/-- C1: only `/patient_portfolio_mimic` answers a missing identifier with an
HTTP 404 as claimed.  `/patient_diagnoses_mimic` and `/admission_details`
raise their `HTTPException(404)` inside the `try:` block, so the blanket
`except Exception` converts them into HTTP 500 responses (whose detail merely
embeds the original message as `"404: ..."`). -/
theorem not_found_behavior (patients : List PatientRow)
    (prescriptions : List PrescriptionRow) (diagnoses : List DiagnosisRow)
    (dIcd : List DIcdRow) (admissions : List AdmissionRow)
    (dateDays : String → Option Int) (nowDays : Int) (patient_id hadm_id : Int)
    (hp : patients.find? (fun p => p.SUBJECT_ID == patient_id) = none)
    (ha : admissions.find? (fun a => a.HADM_ID == hadm_id) = none) :
    get_patient_portfolio_mimic patients prescriptions dateDays nowDays patient_id
        = .httpError 404 s!"Patient with ID {patient_id} not found" ∧
    get_patient_diagnoses_mimic patients diagnoses dIcd patient_id
        = .httpError 500 s!"404: Patient with ID {patient_id} not found" ∧
    get_admission_details admissions hadm_id
        = .httpError 500 s!"404: Admission with ID {hadm_id} not found" := by
  refine ⟨?_, ?_, ?_⟩
  · rw [get_patient_portfolio_mimic, hp]
  · rw [get_patient_diagnoses_mimic, hp]
  · rw [get_admission_details, ha]

/-- Witness for `not_found_behavior`: empty stores, so no identifier exists. -/
theorem not_found_behavior_witness :
    get_patient_portfolio_mimic [] [] (fun _ => none) 0 42
        = .httpError 404 s!"Patient with ID {(42 : Int)} not found" ∧
    get_patient_diagnoses_mimic [] [] [] 42
        = .httpError 500 s!"404: Patient with ID {(42 : Int)} not found" ∧
    get_admission_details [] 7 = .httpError 500 s!"404: Admission with ID {(7 : Int)} not found" :=
  not_found_behavior [] [] [] [] [] (fun _ => none) 0 42 7 rfl rfl

lemma mkDiagnosisEntry_code (ds : List DiagnosisRow) (dIcd : List DIcdRow) (code : String) :
    (mkDiagnosisEntry ds dIcd code).icd9_code = code := by
  rw [mkDiagnosisEntry]
  split <;> rfl

lemma mkDiagnosisEntry_hadm (ds : List DiagnosisRow) (dIcd : List DIcdRow) (code : String) :
    (mkDiagnosisEntry ds dIcd code).hadm_ids = hadmIdsFor ds code := by
  rw [mkDiagnosisEntry]
  split <;> rfl

lemma contains_eq_false_iff (l : List Int) (a : Int) : l.contains a = false ↔ a ∉ l := by
  constructor
  · intro hc hm
    have ht : l.contains a = true := List.elem_iff.mpr hm
    rw [hc] at ht
    cases ht
  · intro hm
    cases hc : l.contains a
    · rfl
    · exact absurd (List.elem_iff.mp hc) hm

lemma mem_collectHadm : ∀ (l : List DiagnosisRow) (acc : List Int) (x : Int),
    x ∈ collectHadm l acc ↔ x ∈ acc ∨ ∃ d ∈ l, d.HADM_ID = some x ∧ x ≠ 0
  | [], acc, x => by simp [collectHadm]
  | d :: ds, acc, x => by
    simp only [collectHadm]
    split
    next h hh =>
      split_ifs with hcond
      · rw [Bool.and_eq_true, bne_iff_ne, Bool.not_eq_true'] at hcond
        obtain ⟨h0, hnm⟩ := hcond
        have hnm' : h ∉ acc := (contains_eq_false_iff acc h).mp hnm
        rw [mem_collectHadm ds (acc ++ [h]) x, List.mem_append, List.mem_singleton]
        constructor
        · rintro ((hx | rfl) | ⟨d', hd', hprop⟩)
          · exact Or.inl hx
          · exact Or.inr ⟨d, List.mem_cons_self d ds, hh, h0⟩
          · exact Or.inr ⟨d', List.mem_cons_of_mem d hd', hprop⟩
        · rintro (hx | ⟨d', hd', hprop⟩)
          · exact Or.inl (Or.inl hx)
          · rcases List.mem_cons.mp hd' with rfl | hd''
            · rw [hh] at hprop
              exact Or.inl (Or.inr (Option.some.inj hprop.1).symm)
            · exact Or.inr ⟨d', hd'', hprop⟩
      · rw [Bool.and_eq_true, bne_iff_ne, Bool.not_eq_true'] at hcond
        rw [mem_collectHadm ds acc x]
        constructor
        · rintro (hx | ⟨d', hd', hprop⟩)
          · exact Or.inl hx
          · exact Or.inr ⟨d', List.mem_cons_of_mem d hd', hprop⟩
        · rintro (hx | ⟨d', hd', hprop⟩)
          · exact Or.inl hx
          · rcases List.mem_cons.mp hd' with rfl | hd''
            · rw [hh] at hprop
              have hxh : h = x := Option.some.inj hprop.1
              subst hxh
              rcases not_and_or.mp hcond with hc | hc
              · exact absurd hprop.2 hc
              · have : h ∈ acc := by
                  by_contra hmm
                  exact hc ((contains_eq_false_iff acc h).mpr hmm)
                exact Or.inl this
            · exact Or.inr ⟨d', hd'', hprop⟩
    next hh =>
      rw [mem_collectHadm ds acc x]
      constructor
      · rintro (h | ⟨d', hd', hprop⟩)
        · exact Or.inl h
        · exact Or.inr ⟨d', List.mem_cons_of_mem d hd', hprop⟩
      · rintro (h | ⟨d', hd', hprop⟩)
        · exact Or.inl h
        · rcases List.mem_cons.mp hd' with rfl | hd''
          · rw [hh] at hprop
            cases hprop.1
          · exact Or.inr ⟨d', hd'', hprop⟩

lemma nodup_collectHadm : ∀ (l : List DiagnosisRow) (acc : List Int),
    acc.Nodup → (collectHadm l acc).Nodup
  | [], _, h => by simpa [collectHadm] using h
  | d :: ds, acc, hacc => by
    simp only [collectHadm]
    split
    next h hh =>
      split_ifs with hcond
      · rw [Bool.and_eq_true, bne_iff_ne, Bool.not_eq_true'] at hcond
        refine nodup_collectHadm ds (acc ++ [h]) ?_
        have hnm : h ∉ acc := (contains_eq_false_iff acc h).mp hcond.2
        simp [List.nodup_append, hacc, hnm]
      · exact nodup_collectHadm ds acc hacc
    next hh => exact nodup_collectHadm ds acc hacc

/-- C10: the claim says only duplicate and null admission ids are excluded
from `hadm_ids`.  Python's truthiness check `if d.HADM_ID` also drops the
non-null id `0`: at this store the patient's single diagnosis row records
`HADM_ID = 0`, yet the returned entry's `hadm_ids` is empty. -/
theorem patient_diagnoses_hadm_zero_counterexample :
    ¬ (∀ res, get_patient_diagnoses_mimic [⟨1, "F", "1950-01-01 00:00:00"⟩]
          [⟨1, some 0, "0031"⟩] [] 1 = .ok res →
        ∀ e ∈ res, (∃ d ∈ [(⟨1, some 0, "0031"⟩ : DiagnosisRow)],
            d.ICD9_CODE = e.icd9_code ∧ d.HADM_ID = some 0) → (0 : Int) ∈ e.hadm_ids) := by
  intro hcl
  have h := hcl [⟨"0031", "Unknown", "Unknown", []⟩] (by decide)
    ⟨"0031", "Unknown", "Unknown", []⟩ (by decide) (by decide)
  exact absurd h (by decide)

/-- C10 (amended): for an existing patient, `/patient_diagnoses_mimic` returns
exactly one entry per distinct ICD9 code of the patient's diagnosis rows; a
code with no `d_icd` title row still yields an entry with both titles
defaulted to `"Unknown"` (never omitted, never an error); and each entry's
`hadm_ids` lists, without duplicates, exactly the admission ids recorded for
that code that are neither null nor `0` (Python truthiness drops both). -/
theorem patient_diagnoses_spec (patients : List PatientRow)
    (diagnoses : List DiagnosisRow) (dIcd : List DIcdRow) (patient_id : Int) :
    ∀ res, get_patient_diagnoses_mimic patients diagnoses dIcd patient_id = .ok res →
      (∀ code : String, res.countP (fun e => e.icd9_code == code)
          = if code ∈ (diagnoses.filter (fun d => d.SUBJECT_ID == patient_id)).map
              (·.ICD9_CODE) then 1 else 0) ∧
      (∀ code ∈ (diagnoses.filter (fun d => d.SUBJECT_ID == patient_id)).map (·.ICD9_CODE),
        (∀ t ∈ dIcd, t.ICD9_CODE ≠ code) →
          (⟨code, "Unknown", "Unknown",
            hadmIdsFor (diagnoses.filter (fun d => d.SUBJECT_ID == patient_id)) code⟩ :
            DiagnosisEntry) ∈ res) ∧
      (∀ e ∈ res, e.hadm_ids.Nodup ∧
        ∀ h : Int, h ∈ e.hadm_ids ↔
          ∃ d ∈ diagnoses.filter (fun d => d.SUBJECT_ID == patient_id),
            d.ICD9_CODE = e.icd9_code ∧ d.HADM_ID = some h ∧ h ≠ 0) := by
  intro res hok
  rw [get_patient_diagnoses_mimic] at hok
  cases hfind : patients.find? (fun p => p.SUBJECT_ID == patient_id) with
  | none =>
    rw [hfind] at hok
    cases hok
  | some patient =>
    rw [hfind] at hok
    cases hok
    refine ⟨?_, ?_, ?_⟩
    · intro code
      rw [List.countP_map]
      have hcongr : (((diagnoses.filter (fun d => d.SUBJECT_ID == patient_id)).map
            (·.ICD9_CODE)).dedup).countP
            ((fun e : DiagnosisEntry => e.icd9_code == code)
              ∘ mkDiagnosisEntry (diagnoses.filter (fun d => d.SUBJECT_ID == patient_id)) dIcd)
          = (((diagnoses.filter (fun d => d.SUBJECT_ID == patient_id)).map
            (·.ICD9_CODE)).dedup).countP (fun c => c == code) := by
        refine List.countP_congr (fun c _ => ?_)
        simp [Function.comp, mkDiagnosisEntry_code]
      rw [hcongr]
      exact List.count_dedup _ _
    · intro code hcode hnt
      refine List.mem_map.mpr ⟨code, List.mem_dedup.mpr hcode, ?_⟩
      rw [mkDiagnosisEntry]
      have hnone : (dIcd.filter (fun t =>
          (((diagnoses.filter (fun d => d.SUBJECT_ID == patient_id)).map
            (·.ICD9_CODE))).contains t.ICD9_CODE)).find?
          (fun t => t.ICD9_CODE == code) = none := by
        rw [List.find?_eq_none]
        intro t ht
        rw [List.mem_filter] at ht
        simp only [beq_iff_eq]
        exact hnt t ht.1
      rw [hnone]
    · intro e he
      rw [List.mem_map] at he
      obtain ⟨code, hcode, rfl⟩ := he
      rw [mkDiagnosisEntry_hadm, mkDiagnosisEntry_code]
      refine ⟨nodup_collectHadm _ [] List.nodup_nil, fun h => ?_⟩
      rw [hadmIdsFor, mem_collectHadm]
      simp only [List.not_mem_nil, false_or]
      constructor
      · rintro ⟨d, hd, hprop⟩
        rw [List.mem_filter] at hd
        exact ⟨d, hd.1, beq_iff_eq.mp hd.2, hprop⟩
      · rintro ⟨d, hd, hdc, hprop⟩
        exact ⟨d, List.mem_filter.mpr ⟨hd, beq_iff_eq.mpr hdc⟩, hprop⟩

example :
    get_patient_diagnoses_mimic [⟨1, "F", "1950-01-01 00:00:00"⟩]
      [⟨1, some 100, "A"⟩, ⟨1, some 100, "A"⟩, ⟨1, none, "A"⟩, ⟨1, some 0, "B"⟩,
        ⟨1, some 200, "A"⟩, ⟨2, some 300, "C"⟩]
      [⟨"A", "short", "long"⟩] 1
    = .ok [⟨"B", "Unknown", "Unknown", []⟩, ⟨"A", "short", "long", [100, 200]⟩] := by decide

/-- Witness for `patient_diagnoses_spec` at a concrete store: code `A` has a
title row and admission ids 100 (recorded twice), null and 200; code `B` has
no title row and only the falsy admission id `0`; a second patient's row is
filtered out. -/
theorem patient_diagnoses_spec_witness :
    (([⟨"B", "Unknown", "Unknown", []⟩, ⟨"A", "short", "long", [100, 200]⟩] :
        List DiagnosisEntry).countP (fun e => e.icd9_code == "A")
      = if "A" ∈ (([⟨1, some 100, "A"⟩, ⟨1, some 100, "A"⟩, ⟨1, none, "A"⟩, ⟨1, some 0, "B"⟩,
            ⟨1, some 200, "A"⟩, ⟨2, some 300, "C"⟩] :
            List DiagnosisRow).filter (fun d => d.SUBJECT_ID == 1)).map (·.ICD9_CODE)
        then 1 else 0) ∧
    ((⟨"B", "Unknown", "Unknown",
        hadmIdsFor (([⟨1, some 100, "A"⟩, ⟨1, some 100, "A"⟩, ⟨1, none, "A"⟩, ⟨1, some 0, "B"⟩,
            ⟨1, some 200, "A"⟩, ⟨2, some 300, "C"⟩] :
            List DiagnosisRow).filter (fun d => d.SUBJECT_ID == 1)) "B"⟩ : DiagnosisEntry)
      ∈ ([⟨"B", "Unknown", "Unknown", []⟩, ⟨"A", "short", "long", [100, 200]⟩] :
          List DiagnosisEntry)) ∧
    ([100, 200] : List Int).Nodup ∧
    ((100 : Int) ∈ ([100, 200] : List Int) ↔
      ∃ d ∈ ([⟨1, some 100, "A"⟩, ⟨1, some 100, "A"⟩, ⟨1, none, "A"⟩, ⟨1, some 0, "B"⟩,
          ⟨1, some 200, "A"⟩, ⟨2, some 300, "C"⟩] :
          List DiagnosisRow).filter (fun d => d.SUBJECT_ID == 1),
        d.ICD9_CODE = "A" ∧ d.HADM_ID = some 100 ∧ (100 : Int) ≠ 0) := by
  have hthm := patient_diagnoses_spec [⟨1, "F", "1950-01-01 00:00:00"⟩]
    [⟨1, some 100, "A"⟩, ⟨1, some 100, "A"⟩, ⟨1, none, "A"⟩, ⟨1, some 0, "B"⟩,
      ⟨1, some 200, "A"⟩, ⟨2, some 300, "C"⟩]
    [⟨"A", "short", "long"⟩] 1
    [⟨"B", "Unknown", "Unknown", []⟩, ⟨"A", "short", "long", [100, 200]⟩] (by decide)
  refine ⟨hthm.1 "A", hthm.2.1 "B" (by decide) (by decide), ?_, ?_⟩
  · exact (hthm.2.2 ⟨"A", "short", "long", [100, 200]⟩ (by decide)).1
  · exact (hthm.2.2 ⟨"A", "short", "long", [100, 200]⟩ (by decide)).2 100

/-! `/most_likely_side_effects` (routes.py `get_most_likely_side_effect`). -/

/-- Rows retrieved by the weighted top-effects endpoint:
`drug_name IN [d.lower() ...]` (all side effects). -/
def retrieveBarklaByDrugs (barkla : List BarklaRow) (drug_list : List String) :
    List BarklaRow :=
  barkla.filter (fun r => (drug_list.map lowerStr).contains r.drug_name)

/-- `barkla_data[barkla_data['side_effect'] == side_effect]`, in frame order. -/
def groupRows (rows : List BarklaRow) (se : String) : List BarklaRow :=
  rows.filter (fun r => r.side_effect == se)

/-- The `groupby('side_effect').sum('combined_rate')` value of one group. -/
def totalRate (rows : List BarklaRow) (se : String) : ℚ :=
  ((groupRows rows se).map (·.combined_rate)).sum

/-- Whether a row attains the maximum `combined_rate` of its group. -/
def isGroupMax (l : List BarklaRow) (r : BarklaRow) : Bool :=
  decide (∀ y ∈ l, y.combined_rate ≤ r.combined_rate)

/-- `contributing_drug_data['combined_rate'].idxmax()` picks the FIRST row of
the group (frame order) attaining the maximum; its drug name is reported. -/
def firstMaxDrug (l : List BarklaRow) : String :=
  match l.find? (isGroupMax l) with
  | some r => r.drug_name
  | none => ""

/-- One element of the list returned by `/most_likely_side_effects`. -/
structure TopSideEffect where
  side_effect : String
  total_rate : ℚ
  most_likely_drug : String
deriving DecidableEq, Repr

/-- Descending-total-rate relation of
`sort_values(by='total_rate', ascending=False)`. -/
def rateGE (a b : String × ℚ) : Prop := b.2 ≤ a.2

instance : DecidableRel rateGE := fun a b => inferInstanceAs (Decidable (b.2 ≤ a.2))

instance : IsTotal (String × ℚ) rateGE := ⟨fun a b => le_total b.2 a.2⟩

instance : IsTrans (String × ℚ) rateGE := ⟨fun _ _ _ h₁ h₂ => le_trans h₂ h₁⟩

/-- Handler of `/most_likely_side_effects`: empty retrieval short-circuits to
`[]`; otherwise group by side effect, sum `combined_rate` per group, sort
descending by the summed `total_rate`, keep the top ten (`head(10)`), and
attach each kept group's first-in-frame-order maximal contributing drug.
(pandas enumerates `groupby` keys in sorted order and `sort_values` uses an
unstable quicksort, so groups tying on `total_rate` may come out in any order;
the embedding fixes one order — distinct side effects in first-occurrence
order, stably sorted — and the verified claims are independent of the tie
order.) -/
def get_most_likely_side_effect (barkla : List BarklaRow) (drug_list : List String) :
    ApiResult (List TopSideEffect) :=
  if retrieveBarklaByDrugs barkla drug_list = [] then .ok []
  else
    .ok (((List.insertionSort rateGE
        ((((retrieveBarklaByDrugs barkla drug_list).map (·.side_effect)).dedup).map
          (fun se => (se, totalRate (retrieveBarklaByDrugs barkla drug_list) se)))).take
        10).map
      (fun p => ⟨p.1, p.2,
        firstMaxDrug (groupRows (retrieveBarklaByDrugs barkla drug_list) p.1)⟩))

example :
    get_most_likely_side_effect
      [⟨"nausea", "aspirin", 1⟩, ⟨"headache", "aspirin", 2⟩, ⟨"headache", "ibuprofen", 2⟩]
      ["Aspirin", "Ibuprofen"]
    = .ok [⟨"headache", 4, "aspirin"⟩, ⟨"nausea", 1, "aspirin"⟩] := by decide

lemma exists_group_max : ∀ (l : List BarklaRow), l ≠ [] →
    ∃ r ∈ l, ∀ y ∈ l, y.combined_rate ≤ r.combined_rate
  | [], h => absurd rfl h
  | [x], _ => ⟨x, List.mem_cons_self x [], fun y hy => by
      rcases List.mem_cons.mp hy with rfl | hy
      · exact le_rfl
      · exact absurd hy (List.not_mem_nil y)⟩
  | x :: a :: as, _ => by
    obtain ⟨r, hr, hmax⟩ := exists_group_max (a :: as) (List.cons_ne_nil a as)
    by_cases hxr : x.combined_rate ≤ r.combined_rate
    · refine ⟨r, List.mem_cons_of_mem x hr, fun z hz => ?_⟩
      rcases List.mem_cons.mp hz with rfl | hz'
      · exact hxr
      · exact hmax z hz'
    · refine ⟨x, List.mem_cons_self x (a :: as), fun z hz => ?_⟩
      rcases List.mem_cons.mp hz with rfl | hz'
      · exact le_rfl
      · exact (hmax z hz').trans (le_of_not_le hxr)

lemma find?_decomp {α : Type} (p : α → Bool) : ∀ (l : List α) (r : α),
    l.find? p = some r →
      ∃ l₁ l₂, l = l₁ ++ r :: l₂ ∧ (∀ x ∈ l₁, p x = false) ∧ p r = true
  | [], r, h => by cases h
  | x :: xs, r, h => by
    cases hx : p x with
    | true =>
      rw [List.find?_cons_of_pos xs hx] at h
      cases h
      exact ⟨[], xs, rfl, fun z hz => absurd hz (List.not_mem_nil z), hx⟩
    | false =>
      rw [List.find?_cons_of_neg xs (by simp [hx])] at h
      obtain ⟨l₁, l₂, heq, hall, hr⟩ := find?_decomp p xs r h
      refine ⟨x :: l₁, l₂, by rw [heq]; rfl, fun z hz => ?_, hr⟩
      rcases List.mem_cons.mp hz with rfl | hz'
      · exact hx
      · exact hall z hz'

/-- C7: `/most_likely_side_effects` returns at most ten entries; `total_rate`
is non-increasing through the sequence; each entry's `total_rate` is the sum
of `combined_rate` over all retrieved rows with that side effect; and each
entry's `most_likely_drug` is the drug name of the FIRST row, in retrieval
order, attaining the maximum `combined_rate` of that side-effect group (the
group splits as `l₁ ++ r :: l₂` with every row of `l₁` strictly below the
maximum attained by `r`). -/
theorem most_likely_side_effects_spec (barkla : List BarklaRow) (drug_list : List String) :
    ∀ res, get_most_likely_side_effect barkla drug_list = .ok res →
      res.length ≤ 10 ∧
      res.Pairwise (fun a b => b.total_rate ≤ a.total_rate) ∧
      (∀ e ∈ res, e.total_rate
          = totalRate (retrieveBarklaByDrugs barkla drug_list) e.side_effect) ∧
      (∀ e ∈ res, ∃ l₁ r l₂,
        groupRows (retrieveBarklaByDrugs barkla drug_list) e.side_effect = l₁ ++ r :: l₂ ∧
        e.most_likely_drug = r.drug_name ∧
        (∀ y ∈ groupRows (retrieveBarklaByDrugs barkla drug_list) e.side_effect,
          y.combined_rate ≤ r.combined_rate) ∧
        (∀ y ∈ l₁, y.combined_rate < r.combined_rate)) := by
  intro res hok
  by_cases hr : retrieveBarklaByDrugs barkla drug_list = []
  · rw [get_most_likely_side_effect, if_pos hr] at hok
    cases hok
    refine ⟨by simp, List.Pairwise.nil, ?_, ?_⟩
    · intro e he
      exact absurd he (List.not_mem_nil e)
    · intro e he
      exact absurd he (List.not_mem_nil e)
  · rw [get_most_likely_side_effect, if_neg hr] at hok
    cases hok
    refine ⟨?_, ?_, ?_, ?_⟩
    · rw [List.length_map]
      exact List.length_take_le ..
    · rw [List.pairwise_map]
      refine List.Pairwise.imp (fun hab => hab) ?_
      exact (List.sorted_insertionSort rateGE _).sublist (List.take_sublist 10 _)
    · intro e he
      rw [List.mem_map] at he
      obtain ⟨p, hp, rfl⟩ := he
      have hp' : p ∈ (((retrieveBarklaByDrugs barkla drug_list).map (·.side_effect)).dedup).map
          (fun se => (se, totalRate (retrieveBarklaByDrugs barkla drug_list) se)) :=
        (List.perm_insertionSort rateGE _).mem_iff.mp (List.mem_of_mem_take hp)
      rw [List.mem_map] at hp'
      obtain ⟨se, _, rfl⟩ := hp'
      rfl
    · intro e he
      rw [List.mem_map] at he
      obtain ⟨p, hp, rfl⟩ := he
      have hp' : p ∈ (((retrieveBarklaByDrugs barkla drug_list).map (·.side_effect)).dedup).map
          (fun se => (se, totalRate (retrieveBarklaByDrugs barkla drug_list) se)) :=
        (List.perm_insertionSort rateGE _).mem_iff.mp (List.mem_of_mem_take hp)
      rw [List.mem_map] at hp'
      obtain ⟨se, hse, rfl⟩ := hp'
      have hgrp : groupRows (retrieveBarklaByDrugs barkla drug_list) se ≠ [] := by
        rw [List.mem_dedup, List.mem_map] at hse
        obtain ⟨r0, hr0, hr0se⟩ := hse
        intro hemp
        have hmem : r0 ∈ groupRows (retrieveBarklaByDrugs barkla drug_list) se :=
          List.mem_filter.mpr ⟨hr0, by simp [hr0se]⟩
        rw [hemp] at hmem
        exact List.not_mem_nil r0 hmem
      obtain ⟨m, hm, hmax⟩ := exists_group_max _ hgrp
      have hfind : ∃ rr, (groupRows (retrieveBarklaByDrugs barkla drug_list) se).find?
          (isGroupMax (groupRows (retrieveBarklaByDrugs barkla drug_list) se)) = some rr := by
        cases hfo : (groupRows (retrieveBarklaByDrugs barkla drug_list) se).find?
            (isGroupMax (groupRows (retrieveBarklaByDrugs barkla drug_list) se)) with
        | none =>
          rw [List.find?_eq_none] at hfo
          exact absurd (decide_eq_true hmax) (hfo m hm)
        | some rr => exact ⟨rr, rfl⟩
      obtain ⟨rr, hrr⟩ := hfind
      obtain ⟨l₁, l₂, heq, hall, hpr⟩ := find?_decomp _ _ _ hrr
      refine ⟨l₁, rr, l₂, heq, ?_, of_decide_eq_true hpr, ?_⟩
      · show firstMaxDrug (groupRows (retrieveBarklaByDrugs barkla drug_list) se)
          = rr.drug_name
        rw [firstMaxDrug, hrr]
      · intro y hy
        have hy' : y ∈ groupRows (retrieveBarklaByDrugs barkla drug_list) se := by
          rw [heq]
          exact List.mem_append.mpr (Or.inl hy)
        have hnot : ¬ ∀ z ∈ groupRows (retrieveBarklaByDrugs barkla drug_list) se,
            z.combined_rate ≤ y.combined_rate := by
          intro hz
          have htr : isGroupMax (groupRows (retrieveBarklaByDrugs barkla drug_list) se) y
              = true := decide_eq_true hz
          rw [hall y hy] at htr
          cases htr
        push_neg at hnot
        obtain ⟨z, hz, hzy⟩ := hnot
        exact lt_of_lt_of_le hzy (of_decide_eq_true hpr z hz)

/-- Witness for `most_likely_side_effects_spec` at a concrete store: headache
is contributed by two drugs tying at the group maximum, so the first row in
retrieval order (aspirin) is reported. -/
theorem most_likely_side_effects_spec_witness :
    (([⟨"headache", 4, "aspirin"⟩, ⟨"nausea", 1, "aspirin"⟩] :
        List TopSideEffect).length ≤ 10) ∧
    (([⟨"headache", 4, "aspirin"⟩, ⟨"nausea", 1, "aspirin"⟩] :
        List TopSideEffect).Pairwise (fun a b => b.total_rate ≤ a.total_rate)) ∧
    ((⟨"headache", 4, "aspirin"⟩ : TopSideEffect).total_rate
      = totalRate (retrieveBarklaByDrugs
          [⟨"nausea", "aspirin", 1⟩, ⟨"headache", "aspirin", 2⟩, ⟨"headache", "ibuprofen", 2⟩]
          ["Aspirin", "Ibuprofen"]) "headache") ∧
    (∃ l₁ r l₂,
      groupRows (retrieveBarklaByDrugs
          [⟨"nausea", "aspirin", 1⟩, ⟨"headache", "aspirin", 2⟩, ⟨"headache", "ibuprofen", 2⟩]
          ["Aspirin", "Ibuprofen"]) "headache" = l₁ ++ r :: l₂ ∧
      (⟨"headache", 4, "aspirin"⟩ : TopSideEffect).most_likely_drug = r.drug_name ∧
      (∀ y ∈ groupRows (retrieveBarklaByDrugs
          [⟨"nausea", "aspirin", 1⟩, ⟨"headache", "aspirin", 2⟩, ⟨"headache", "ibuprofen", 2⟩]
          ["Aspirin", "Ibuprofen"]) "headache", y.combined_rate ≤ r.combined_rate) ∧
      (∀ y ∈ l₁, y.combined_rate < r.combined_rate)) := by
  have h := most_likely_side_effects_spec
    [⟨"nausea", "aspirin", 1⟩, ⟨"headache", "aspirin", 2⟩, ⟨"headache", "ibuprofen", 2⟩]
    ["Aspirin", "Ibuprofen"]
    [⟨"headache", 4, "aspirin"⟩, ⟨"nausea", 1, "aspirin"⟩] (by decide)
  exact ⟨h.1, h.2.1, h.2.2.1 ⟨"headache", 4, "aspirin"⟩ (by decide),
    h.2.2.2 ⟨"headache", 4, "aspirin"⟩ (by decide)⟩

end RatKernelEval

end DDI
